import Mathlib

/-!
A shallow embedding of `airflow/api_connexion/endpoints/task_instance_endpoint.py`:
the task-instance read endpoints (list and batch), the filter helpers
(`_convert_state`, `_apply_array_filter`, `_apply_range_filter`) and the two
mutation endpoints (`post_clear_task_instances`, `post_set_task_instances_state`).

Rows of the relational tables are Lean structures; a SQLAlchemy `Query` over the
`TaskInstance JOIN DagRun` relation is a list of row pairs; datetimes are `Nat`;
the Python `None` state (the `State.NONE` sentinel) is `Option.none`.
-/

namespace TaskInstanceEndpoint

/-- A row of the `task_instance` table.  `state = none` models the sentinel
`State.NONE`; `start_date`, `end_date` and `duration` are nullable columns. -/
structure TaskInstance where
  dag_id : String
  task_id : String
  run_id : String
  map_index : Int
  state : Option String
  pool : String
  queue : String
  start_date : Option Nat
  end_date : Option Nat
  duration : Option Nat
  deriving DecidableEq, Repr

/-- A row of the `dag_run` table (`DagRun as DR` in the source). -/
structure DagRun where
  dag_id : String
  run_id : String
  execution_date : Nat
  state : String
  deriving DecidableEq, Repr

/-- A row of the `sla_miss` table. -/
structure SlaMiss where
  dag_id : String
  task_id : String
  execution_date : Nat
  deriving DecidableEq, Repr

/-- A row of the `rendered_task_instance_fields` table (`RTIF` in the source). -/
structure RenderedTaskInstanceFields where
  dag_id : String
  task_id : String
  execution_date : Nat
  deriving DecidableEq, Repr

/-- The database state visible to the endpoints. -/
structure Database where
  task_instances : List TaskInstance
  dag_runs : List DagRun
  sla_misses : List SlaMiss
  rendered_fields : List RenderedTaskInstanceFields
  deriving DecidableEq, Repr

/-- A row of the base relation `TaskInstance INNER JOIN Run`. -/
abbrev Row := TaskInstance × DagRun

/-- A query over the base relation is its current list of rows. -/
abbrev Query := List Row

/-- `_convert_state`: `None`/empty input means no constraint; otherwise the
token `"none"` is rewritten to the sentinel (`State.NONE`, i.e. `none`) and
every other token passes through unchanged. -/
def convert_state (states : Option (List String)) : Option (List (Option String)) :=
  match states with
  | none => none
  | some ss =>
    if ss.isEmpty then none
    else some (ss.map (fun s => if s == "none" then none else some s))

/-- `_apply_array_filter`: no-op when `values` is `None`; otherwise AND the
disjunction `key == v1 OR key == v2 OR ...` onto the query (an empty `or_` is
false, so an empty list matches nothing). -/
def apply_array_filter {α : Type} [BEq α] (query : Query) (key : Row → α)
    (values : Option (List α)) : Query :=
  match values with
  | none => query
  | some vs => query.filter (fun row => vs.any (fun v => key row == v))

/-- SQL comparison on a nullable column: a comparison with NULL is not true. -/
def null_le (x y : Option Nat) : Bool :=
  match x, y with
  | some a, some b => a ≤ b
  | _, _ => false

/-- `_apply_range_filter`: AND `key >= gte_value` onto the query only when the
lower bound is present, then `key <= lte_value` only when the upper bound is. -/
def apply_range_filter (query : Query) (key : Row → Option Nat)
    (value_range : Option Nat × Option Nat) : Query :=
  let q1 :=
    match value_range.1 with
    | none => query
    | some gte_value => query.filter (fun row => null_le (some gte_value) (key row))
  match value_range.2 with
  | none => q1
  | some lte_value => q1.filter (fun row => null_le (key row) (some lte_value))

/-- The rows `session.query(TI).join(TI.dag_run)` produces for one task
instance: one row per dag-run row matching its `(dag_id, run_id)`. -/
def join_runs (runs : List DagRun) (ti : TaskInstance) : List Row :=
  (runs.filter (fun dr => dr.dag_id == ti.dag_id && dr.run_id == ti.run_id)).map
    (fun dr => (ti, dr))

/-- `session.query(TI).join(TI.dag_run)`: the inner join of the task-instance
table with the dag-run table. -/
def base_query (db : Database) : Query :=
  db.task_instances.flatMap (join_runs db.dag_runs)

/-- SQL equality of a column with a possibly-NULL parameter: `col == NULL`
is not true. -/
def opt_eq (x : String) (v : Option String) : Bool :=
  match v with
  | none => false
  | some s => x == s

/-- The query parameters of `get_task_instances` (after `format_parameters`
has parsed the datetimes). -/
structure ListParams where
  limit : Nat
  dag_id : Option String
  dag_run_id : Option String
  execution_date_gte : Option Nat
  execution_date_lte : Option Nat
  start_date_gte : Option Nat
  start_date_lte : Option Nat
  end_date_gte : Option Nat
  end_date_lte : Option Nat
  duration_gte : Option Nat
  duration_lte : Option Nat
  state : Option (List String)
  pool : Option (List String)
  queue : Option (List String)
  offset : Option Nat
  deriving DecidableEq, Repr

/-- The filter chain of `get_task_instances` applied to the base query, in
source order: identity filters (skipped on the `"~"` wildcard), the four
range filters, then the three array filters (state normalized first). -/
def filtered_base_query (db : Database) (p : ListParams) : Query :=
  let q := base_query db
  let q := if p.dag_id != some "~" then q.filter (fun row => opt_eq row.1.dag_id p.dag_id) else q
  let q := if p.dag_run_id != some "~" then q.filter (fun row => opt_eq row.1.run_id p.dag_run_id) else q
  let q := apply_range_filter q (fun row => some row.2.execution_date)
    (p.execution_date_gte, p.execution_date_lte)
  let q := apply_range_filter q (fun row => row.1.start_date) (p.start_date_gte, p.start_date_lte)
  let q := apply_range_filter q (fun row => row.1.end_date) (p.end_date_gte, p.end_date_lte)
  let q := apply_range_filter q (fun row => row.1.duration) (p.duration_gte, p.duration_lte)
  let q := apply_array_filter q (fun row => row.1.state) (convert_state p.state)
  let q := apply_array_filter q (fun row => row.1.pool) p.pool
  apply_array_filter q (fun row => row.1.queue) p.queue

/-- The left outer join with `SlaMiss` on `(dag_id, task_id, execution_date)`,
added after the count is taken. -/
def left_join_sla (db : Database) (q : Query) : List (Row × Option SlaMiss) :=
  q.flatMap (fun row =>
    match db.sla_misses.filter (fun s =>
      s.dag_id == row.1.dag_id && s.task_id == row.1.task_id &&
        s.execution_date == row.2.execution_date) with
    | [] => [(row, none)]
    | ms => ms.map (fun s => (row, some s)))

/-- The left outer join with `RenderedTaskInstanceFields`, added last. -/
def left_join_rendered (db : Database) (q : List (Row × Option SlaMiss)) :
    List ((Row × Option SlaMiss) × Option RenderedTaskInstanceFields) :=
  q.flatMap (fun row =>
    match db.rendered_fields.filter (fun s =>
      s.dag_id == row.1.1.dag_id && s.task_id == row.1.1.task_id &&
        s.execution_date == row.1.2.execution_date) with
    | [] => [(row, none)]
    | ms => ms.map (fun s => (row, some s)))

/-- The response of the list and batch read endpoints: the joined result rows
and the pre-join `total_entries` count. -/
structure TaskInstanceCollection where
  task_instances : List ((Row × Option SlaMiss) × Option RenderedTaskInstanceFields)
  total_entries : Nat
  deriving DecidableEq, Repr

/-- `get_task_instances`: build the filtered base query, count it
(`func.count` before the outer joins are added), then add the two outer joins
and paginate with `offset`/`limit`. -/
def get_task_instances (db : Database) (p : ListParams) : TaskInstanceCollection :=
  let bq := filtered_base_query db p
  let total_entries := bq.length
  let joined := left_join_rendered db (left_join_sla db bq)
  { task_instances := (joined.drop (p.offset.getD 0)).take p.limit,
    total_entries := total_entries }

/-- The request body of `get_task_instances_batch` (`task_instance_batch_form`). -/
structure BatchBody where
  dag_ids : Option (List String)
  execution_date_gte : Option Nat
  execution_date_lte : Option Nat
  start_date_gte : Option Nat
  start_date_lte : Option Nat
  end_date_gte : Option Nat
  end_date_lte : Option Nat
  duration_gte : Option Nat
  duration_lte : Option Nat
  state : Option (List String)
  pool : Option (List String)
  queue : Option (List String)
  deriving DecidableEq, Repr

/-- The filter chain of `get_task_instances_batch`: an array filter on
`dag_id` instead of the identity filters, then the same range and array
filters as the list endpoint. -/
def filtered_base_query_batch (db : Database) (b : BatchBody) : Query :=
  let q := base_query db
  let q := apply_array_filter q (fun row => row.1.dag_id) b.dag_ids
  let q := apply_range_filter q (fun row => some row.2.execution_date)
    (b.execution_date_gte, b.execution_date_lte)
  let q := apply_range_filter q (fun row => row.1.start_date) (b.start_date_gte, b.start_date_lte)
  let q := apply_range_filter q (fun row => row.1.end_date) (b.end_date_gte, b.end_date_lte)
  let q := apply_range_filter q (fun row => row.1.duration) (b.duration_gte, b.duration_lte)
  let q := apply_array_filter q (fun row => row.1.state) (convert_state b.state)
  let q := apply_array_filter q (fun row => row.1.pool) b.pool
  apply_array_filter q (fun row => row.1.queue) b.queue

/-- `get_task_instances_batch`: same count-then-join shape as the list
endpoint, with no pagination. -/
def get_task_instances_batch (db : Database) (b : BatchBody) : TaskInstanceCollection :=
  let bq := filtered_base_query_batch db b
  { task_instances := left_join_rendered db (left_join_sla db bq),
    total_entries := bq.length }

/-- A DAG of the workflow catalog: its id, its task ids (`task_dict` keys) and
its dependency edges (upstream task, downstream task). -/
structure Dag where
  dag_id : String
  task_dict : List String
  edges : List (String × String)
  deriving DecidableEq, Repr

/-- `current_app.dag_bag.get_dag`: look a DAG up by id in the catalog. -/
def get_dag (dag_bag : List Dag) (dag_id : String) : Option Dag :=
  dag_bag.find? (fun d => d.dag_id == dag_id)

/-- The errors the mutation endpoints can raise: `NotFound` with its detail
message, and SQLAlchemy's `MultipleResultsFound` from `one_or_none`. -/
inductive ApiError where
  | not_found (detail : String)
  | multiple_results_found
  deriving DecidableEq, Repr

/-- `Query.one_or_none`: none for no row, the row if unique, and an error when
more than one row matches. -/
def one_or_none {α : Type} (l : List α) : Except ApiError (Option α) :=
  match l with
  | [] => .ok none
  | [a] => .ok (some a)
  | _ => .error .multiple_results_found

/-- The identity triple serialized by the reference collection schema. -/
structure TaskInstanceReference where
  dag_id : String
  task_id : String
  run_id : String
  deriving DecidableEq, Repr

/-- Project a task instance to its reference. -/
def ti_reference (ti : TaskInstance) : TaskInstanceReference :=
  { dag_id := ti.dag_id, task_id := ti.task_id, run_id := ti.run_id }

/-- The primary key of a task instance. -/
def ti_key (ti : TaskInstance) : String × String × String × Int :=
  (ti.dag_id, ti.task_id, ti.run_id, ti.map_index)

/-- The primary key of a dag run. -/
def dr_key (dr : DagRun) : String × String :=
  (dr.dag_id, dr.run_id)

/-- Two task instances with the same primary key. -/
def same_ti_key (a b : TaskInstance) : Bool :=
  a.dag_id == b.dag_id && a.task_id == b.task_id && a.run_id == b.run_id &&
    a.map_index == b.map_index

/-- The request body of `post_clear_task_instances`
(`clear_task_instance_form`), reduced to the fields this development uses:
the two booleans and the logical-timestamp sub-range. -/
structure ClearBody where
  dry_run : Bool
  reset_dag_runs : Bool
  start_date : Option Nat
  end_date : Option Nat
  deriving DecidableEq, Repr

/-- Modelled from the spec: `DAG.clear` (defined in `airflow/models/dag.py`,
which is not among the given sources) resolves, in dry-run mode, the set of
the DAG's task instances inside the requested logical-timestamp sub-range by
delegating to the workflow's own graph walk; here it selects the DAG's task
instances whose owning run's logical timestamp lies in the given range. -/
def dag_clear (db : Database) (dag : Dag) (start_date end_date : Option Nat) :
    List TaskInstance :=
  db.task_instances.filter (fun ti =>
    ti.dag_id == dag.dag_id &&
      db.dag_runs.any (fun dr =>
        dr.dag_id == ti.dag_id && dr.run_id == ti.run_id &&
          (match start_date with | none => true | some lo => decide (lo ≤ dr.execution_date)) &&
          (match end_date with | none => true | some hi => decide (dr.execution_date ≤ hi))))

/-- Modelled from the spec: `clear_task_instances` (defined in
`airflow/models/taskinstance.py`, not among the given sources) resets each
resolved instance's state to the sentinel and, when a dag-run state is passed
(the endpoint passes `DagRunState.QUEUED` or `False`, here `some "queued"` or
`none`), sets each affected run's state to it. -/
def clear_task_instances (db : Database) (tis : List TaskInstance)
    (dag_run_state : Option String) : Database :=
  { db with
    task_instances := db.task_instances.map (fun ti =>
      if tis.any (fun t => same_ti_key t ti) then { ti with state := none } else ti),
    dag_runs :=
      match dag_run_state with
      | none => db.dag_runs
      | some st => db.dag_runs.map (fun dr =>
          if tis.any (fun t => t.dag_id == dr.dag_id && t.run_id == dr.run_id) then
            { dr with state := st }
          else dr) }

/-- `post_clear_task_instances`: look the DAG up (NotFound when absent),
resolve the affected set with `dag.clear(dry_run=True, ...)`, mutate through
`clear_task_instances` only when `dry_run` is false (passing `QUEUED` as the
run state exactly when `reset_dag_runs`), and return the reference list. -/
def post_clear_task_instances (dag_bag : List Dag) (db : Database) (dag_id : String)
    (body : ClearBody) : Except ApiError (Database × List TaskInstanceReference) :=
  match get_dag dag_bag dag_id with
  | none => .error (.not_found ("Dag id " ++ dag_id ++ " not found"))
  | some dag =>
    let task_instances := dag_clear db dag body.start_date body.end_date
    let db2 :=
      if body.dry_run then db
      else clear_task_instances db task_instances
        (if body.reset_dag_runs then some "queued" else none)
    .ok (db2, task_instances.map ti_reference)

/-- The request body of `post_set_task_instances_state`
(`set_task_instance_state_form`). -/
structure SetStateBody where
  task_id : String
  execution_date : Option Nat
  dag_run_id : Option String
  new_state : String
  include_upstream : Bool
  include_downstream : Bool
  include_future : Bool
  include_past : Bool
  dry_run : Bool
  deriving DecidableEq, Repr

/-- Python truthiness of the optional `dag_run_id` string: `None` and the
empty string are falsy. -/
def truthy_str (v : Option String) : Bool :=
  match v with
  | none => false
  | some s => s != ""

/-- The association-proxy filter `TI.execution_date == d`: the instance's
owning dag run (matched on `(dag_id, run_id)`) has logical timestamp `d`. -/
def ti_matches_execution_date (db : Database) (ti : TaskInstance) (d : Nat) : Bool :=
  db.dag_runs.any (fun dr =>
    dr.dag_id == ti.dag_id && dr.run_id == ti.run_id && dr.execution_date == d)

/-- `session.query(TI).get({...})`: the direct primary-key lookup used for the
run-id anchor, pinned to `map_index = -1`. -/
def ti_get (db : Database) (task_id dag_id run_id : String) (map_index : Int) :
    Option TaskInstance :=
  db.task_instances.find? (fun ti =>
    ti.task_id == task_id && ti.dag_id == dag_id && ti.run_id == run_id &&
      ti.map_index == map_index)

/-- The tasks one edge upstream of `t`. -/
def direct_upstream (dag : Dag) (t : String) : List String :=
  (dag.edges.filter (fun e => e.2 == t)).map (fun e => e.1)

/-- The tasks one edge downstream of `t`. -/
def direct_downstream (dag : Dag) (t : String) : List String :=
  (dag.edges.filter (fun e => e.1 == t)).map (fun e => e.2)

/-- Fuelled transitive closure of a one-step neighbour function. -/
def closure_aux (step : Dag → String → List String) (dag : Dag) :
    Nat → List String → List String
  | 0, acc => acc
  | n + 1, acc =>
    let fresh := ((acc.flatMap (step dag)).dedup).filter (fun x => !(acc.contains x))
    if fresh.isEmpty then acc else closure_aux step dag n (acc ++ fresh)

/-- Modelled from the spec: all ancestor tasks of `t` in the DAG's graph. -/
def ancestor_tasks (dag : Dag) (t : String) : List String :=
  (closure_aux direct_upstream dag dag.task_dict.length [t]).filter (fun x => x != t)

/-- Modelled from the spec: all descendant tasks of `t` in the DAG's graph. -/
def descendant_tasks (dag : Dag) (t : String) : List String :=
  (closure_aux direct_downstream dag dag.task_dict.length [t]).filter (fun x => x != t)

/-- Modelled from the spec: `DAG.set_task_instance_state` (defined in
`airflow/models/dag.py`, not among the given sources).  It resolves the
affected set — the anchor task plus its ancestors when `upstream` and its
descendants when `downstream`, over the anchor run plus later runs when
`future` and earlier runs when `past` (inclusive logical-timestamp bounds) —
and, only when `commit` is true, writes `new_state` to each resolved
instance.  It returns the possibly-updated database and the resolved set. -/
def set_task_instance_state (db : Database) (dag : Dag) (task_id : String)
    (run_id : Option String) (execution_date : Option Nat) (new_state : String)
    (upstream downstream future past : Bool) (commit : Bool) :
    Database × List TaskInstance :=
  let anchor_date : Option Nat :=
    match run_id with
    | some rid =>
      (db.dag_runs.find? (fun dr => dr.dag_id == dag.dag_id && dr.run_id == rid)).map
        (fun dr => dr.execution_date)
    | none => execution_date
  let task_set : List String :=
    [task_id] ++ (if upstream then ancestor_tasks dag task_id else [])
      ++ (if downstream then descendant_tasks dag task_id else [])
  let run_selected : DagRun → Bool := fun dr =>
    match anchor_date with
    | none => false
    | some a =>
      dr.execution_date == a || (future && decide (a ≤ dr.execution_date))
        || (past && decide (dr.execution_date ≤ a))
  let resolved := db.task_instances.filter (fun ti =>
    ti.dag_id == dag.dag_id && task_set.contains ti.task_id &&
      db.dag_runs.any (fun dr =>
        dr.dag_id == ti.dag_id && dr.run_id == ti.run_id && run_selected dr))
  if commit then
    ({ db with
        task_instances := db.task_instances.map (fun ti =>
          if resolved.any (fun t => same_ti_key t ti) then { ti with state := some new_state }
          else ti) },
     resolved)
  else (db, resolved)

/-- `post_set_task_instances_state`: DAG lookup, task lookup in `task_dict`,
then the two anchor-existence checks exactly as in the source — the
execution-date anchor (when truthy) through a filtered `one_or_none` scan,
the run-id anchor (when truthy) through a direct primary-key `get` — and
finally the cascade resolution and state write with `commit = not dry_run`. -/
def post_set_task_instances_state (dag_bag : List Dag) (db : Database) (dag_id : String)
    (body : SetStateBody) : Except ApiError (Database × List TaskInstanceReference) :=
  match get_dag dag_bag dag_id with
  | none => .error (.not_found ("Dag ID " ++ dag_id ++ " not found"))
  | some dag =>
    if !(dag.task_dict.contains body.task_id) then
      .error (.not_found ("Task ID " ++ body.task_id ++ " not found"))
    else
      let date_check : Except ApiError Unit :=
        match body.execution_date with
        | none => .ok ()
        | some d =>
          match one_or_none (db.task_instances.filter (fun ti =>
            ti.task_id == body.task_id && ti.dag_id == dag_id &&
              ti_matches_execution_date db ti d)) with
          | .error e => .error e
          | .ok none => .error (.not_found ("Task instance not found for task " ++
              body.task_id ++ " on execution_date " ++ toString d))
          | .ok (some _) => .ok ()
      match date_check with
      | .error e => .error e
      | .ok () =>
        let run_check : Except ApiError Unit :=
          if truthy_str body.dag_run_id then
            match ti_get db body.task_id dag_id (body.dag_run_id.getD "") (-1) with
            | none => .error (.not_found ("Task instance not found for task " ++
                body.task_id ++ " on DAG run with ID " ++ body.dag_run_id.getD ""))
            | some _ => .ok ()
          else .ok ()
        match run_check with
        | .error e => .error e
        | .ok () =>
          let r := set_task_instance_state db dag body.task_id body.dag_run_id
            body.execution_date body.new_state body.include_upstream
            body.include_downstream body.include_future body.include_past (!body.dry_run)
          .ok (r.1, r.2.map ti_reference)

/-- The anchor-existence check the claim describes for the execution-date
anchor, per the spec's words: a direct key lookup — resolve the run addressed
by `(dag_id, execution_date)`, then `get` the task instance by its full
primary key with `map_index = -1`. -/
def anchor_key_lookup_by_date (db : Database) (dag_id task_id : String) (d : Nat) :
    Option TaskInstance :=
  match db.dag_runs.find? (fun dr => dr.dag_id == dag_id && dr.execution_date == d) with
  | none => none
  | some dr => ti_get db task_id dag_id dr.run_id (-1)

/-- The number of distinct task-instance keys among the rows kept by the list
endpoint's composed predicate over `TaskInstance INNER JOIN Run`. -/
def distinct_matching_keys (db : Database) (p : ListParams) : Nat :=
  (((filtered_base_query db p).map (fun row => ti_key row.1)).dedup).length

/-- The batch-endpoint analogue of `distinct_matching_keys`. -/
def distinct_matching_keys_batch (db : Database) (b : BatchBody) : Nat :=
  (((filtered_base_query_batch db b).map (fun row => ti_key row.1)).dedup).length

/-! Concrete fixtures used by the witness theorems. -/

/-- A regular task instance of task `t` in run `r1`, mapped (`map_index 0`). -/
def w_ti0 : TaskInstance where
  dag_id := "d"
  task_id := "t"
  run_id := "r1"
  map_index := 0
  state := some "success"
  pool := "p"
  queue := "q"
  start_date := some 1
  end_date := some 2
  duration := some 1

/-- An unmapped task instance of task `u` in run `r1` with the sentinel state. -/
def w_ti1 : TaskInstance :=
  { w_ti0 with task_id := "u", map_index := -1, state := none }

/-- The run `r1` at logical timestamp 5. -/
def w_dr1 : DagRun where
  dag_id := "d"
  run_id := "r1"
  execution_date := 5
  state := "success"

/-- An SLA-miss row joining to `w_ti0`. -/
def w_sla : SlaMiss where
  dag_id := "d"
  task_id := "t"
  execution_date := 5

/-- A small database: two instances, one run, one SLA-miss row. -/
def w_db : Database where
  task_instances := [w_ti0, w_ti1]
  dag_runs := [w_dr1]
  sla_misses := [w_sla]
  rendered_fields := []

/-- Unfiltered list parameters (wildcard identities, no other filters). -/
def w_params : ListParams where
  limit := 100
  dag_id := some "~"
  dag_run_id := some "~"
  execution_date_gte := none
  execution_date_lte := none
  start_date_gte := none
  start_date_lte := none
  end_date_gte := none
  end_date_lte := none
  duration_gte := none
  duration_lte := none
  state := none
  pool := none
  queue := none
  offset := none

/-- An unfiltered batch body. -/
def w_batch : BatchBody where
  dag_ids := none
  execution_date_gte := none
  execution_date_lte := none
  start_date_gte := none
  start_date_lte := none
  end_date_gte := none
  end_date_lte := none
  duration_gte := none
  duration_lte := none
  state := none
  pool := none
  queue := none

/-- The DAG `d` with graph `a -> t -> u`. -/
def w_dag : Dag where
  dag_id := "d"
  task_dict := ["a", "t", "u"]
  edges := [("a", "t"), ("t", "u")]

/-- The workflow catalog holding only `w_dag`. -/
def w_dag_bag : List Dag := [w_dag]

/-- A dry-run clear request over the whole range. -/
def w_clear_dry : ClearBody where
  dry_run := true
  reset_dag_runs := false
  start_date := none
  end_date := none

/-- A committing clear request with `reset_dag_runs`. -/
def w_clear_commit : ClearBody where
  dry_run := false
  reset_dag_runs := true
  start_date := none
  end_date := none

/-- A dry-run set-state request anchored on execution date 5. -/
def w_set_dry : SetStateBody where
  task_id := "t"
  execution_date := some 5
  dag_run_id := none
  new_state := "failed"
  include_upstream := false
  include_downstream := false
  include_future := false
  include_past := false
  dry_run := true

/-- A committing set-state request with both anchors falsy. -/
def w_set_falsy : SetStateBody :=
  { w_set_dry with execution_date := none, dag_run_id := none, dry_run := false }

/-- A set-state request addressing a run id with no matching instance. -/
def w_set_missing_run : SetStateBody :=
  { w_set_dry with execution_date := none, dag_run_id := some "r2", dry_run := false }

/-- A committing set-state request anchored on execution date 5 (resolved by
the scan through the mapped instance `w_ti0`, which has no `map_index = -1`
row). -/
def w_set_by_date : SetStateBody := { w_set_dry with dry_run := false }

end TaskInstanceEndpoint

namespace TaskInstanceEndpoint

/-! Shared lemmas about the filter primitives. -/

/-- An absent array filter leaves the query unchanged. -/
theorem array_filter_none {α : Type} [BEq α] (q : Query) (key : Row → α) :
    apply_array_filter q key none = q := rfl

/-- An array filter with a present empty list keeps no row. -/
theorem array_filter_some_nil {α : Type} [BEq α] (q : Query) (key : Row → α) :
    apply_array_filter q key (some []) = [] := by
  simp [apply_array_filter]

/-- Any array filter of the empty query is empty. -/
theorem array_filter_nil_query {α : Type} [BEq α] (key : Row → α)
    (v : Option (List α)) : apply_array_filter [] key v = [] := by
  cases v <;> simp [apply_array_filter]

/-- C4: the array filter applied with undefined `values` is a no-op — the
result set equals the unfiltered result set — and applied with a present but
empty list it constrains the query to match nothing, for every query (hence
for every database state). -/
theorem C4_array_filter_no_op_and_empty {α : Type} [BEq α] (q : Query) (key : Row → α) :
    apply_array_filter q key none = q ∧ apply_array_filter q key (some []) = [] :=
  ⟨array_filter_none q key, array_filter_some_nil q key⟩

/-- C7: the range filter adds the lower-bound conjunct only when `lo` is
present, adds the upper-bound conjunct only when `hi` is present, and with
both bounds absent it returns the input query itself. -/
theorem C7_range_filter_optional_bounds (q : Query) (key : Row → Option Nat) :
    apply_range_filter q key (none, none) = q ∧
    (∀ lo, apply_range_filter q key (some lo, none) =
      q.filter (fun row => null_le (some lo) (key row))) ∧
    (∀ hi, apply_range_filter q key (none, some hi) =
      q.filter (fun row => null_le (key row) (some hi))) ∧
    (∀ lo hi, apply_range_filter q key (some lo, some hi) =
      (q.filter (fun row => null_le (some lo) (key row))).filter
        (fun row => null_le (key row) (some hi))) :=
  ⟨rfl, fun _ => rfl, fun _ => rfl, fun _ _ => rfl⟩

/-- C5: the state normalizer returns no constraint for absent or empty input;
otherwise it rewrites each occurrence of the reserved `"none"` token to the
sentinel and keeps every other token unchanged; and filtering on the
normalized `["none"]` keeps exactly the rows whose stored state is the
sentinel. -/
theorem C5_state_normalizer (ss : List String) (hss : ss ≠ []) (q : Query) :
    convert_state none = none ∧
    convert_state (some []) = none ∧
    convert_state (some ss) =
      some (ss.map (fun s => if s == "none" then none else some s)) ∧
    (∀ row, row ∈ apply_array_filter q (fun r => r.1.state) (convert_state (some ["none"])) ↔
      row ∈ q ∧ row.1.state = none) := by
  refine ⟨rfl, rfl, ?_, ?_⟩
  · match ss, hss with
    | _ :: _, _ => rfl
  · intro row
    simp [convert_state, apply_array_filter, List.mem_filter]

/-- C5 witness: the normalizer at a concrete nonempty token list. -/
theorem C5_state_normalizer_witness :
    convert_state (some ["none", "running"]) = some [none, some "running"] := by
  have h := C5_state_normalizer ["none", "running"] (by decide) []
  simpa using h.2.2.1

end TaskInstanceEndpoint

namespace TaskInstanceEndpoint

/-- The list endpoint on an empty filtered base query returns zero entries. -/
theorem get_task_instances_of_filtered_nil (db : Database) (p : ListParams)
    (h : filtered_base_query db p = []) :
    get_task_instances db p = { task_instances := [], total_entries := 0 } := by
  simp [get_task_instances, h, left_join_sla, left_join_rendered]

/-- The batch endpoint on an empty filtered base query returns zero entries. -/
theorem get_task_instances_batch_of_filtered_nil (db : Database) (b : BatchBody)
    (h : filtered_base_query_batch db b = []) :
    get_task_instances_batch db b = { task_instances := [], total_entries := 0 } := by
  simp [get_task_instances_batch, h, left_join_sla, left_join_rendered]

/-- An empty pool list empties the list endpoint's filtered base query. -/
theorem filtered_base_query_pool_nil (db : Database) (p : ListParams) :
    filtered_base_query db { p with pool := some [] } = [] := by
  simp [filtered_base_query, array_filter_some_nil, array_filter_nil_query]

/-- An empty queue list empties the list endpoint's filtered base query. -/
theorem filtered_base_query_queue_nil (db : Database) (p : ListParams) :
    filtered_base_query db { p with queue := some [] } = [] := by
  simp [filtered_base_query, array_filter_some_nil]

/-- An empty pool list empties the batch endpoint's filtered base query. -/
theorem filtered_base_query_batch_pool_nil (db : Database) (b : BatchBody) :
    filtered_base_query_batch db { b with pool := some [] } = [] := by
  simp [filtered_base_query_batch, array_filter_some_nil, array_filter_nil_query]

/-- An empty queue list empties the batch endpoint's filtered base query. -/
theorem filtered_base_query_batch_queue_nil (db : Database) (b : BatchBody) :
    filtered_base_query_batch db { b with queue := some [] } = [] := by
  simp [filtered_base_query_batch, array_filter_some_nil]

/-- C9: on both read operations a present but empty state list is normalized
to the absent value and applies no constraint — the whole response equals the
one for an absent state filter — while a present but empty pool or queue list
yields zero matches. -/
theorem C9_empty_state_list_no_constraint (db : Database) (p : ListParams) (b : BatchBody) :
    get_task_instances db { p with state := some [] } =
      get_task_instances db { p with state := none } ∧
    get_task_instances_batch db { b with state := some [] } =
      get_task_instances_batch db { b with state := none } ∧
    get_task_instances db { p with pool := some [] } =
      { task_instances := [], total_entries := 0 } ∧
    get_task_instances db { p with queue := some [] } =
      { task_instances := [], total_entries := 0 } ∧
    get_task_instances_batch db { b with pool := some [] } =
      { task_instances := [], total_entries := 0 } ∧
    get_task_instances_batch db { b with queue := some [] } =
      { task_instances := [], total_entries := 0 } := by
  refine ⟨rfl, rfl, ?_, ?_, ?_, ?_⟩
  · exact get_task_instances_of_filtered_nil _ _ (filtered_base_query_pool_nil db p)
  · exact get_task_instances_of_filtered_nil _ _ (filtered_base_query_queue_nil db p)
  · exact get_task_instances_batch_of_filtered_nil _ _ (filtered_base_query_batch_pool_nil db b)
  · exact get_task_instances_batch_of_filtered_nil _ _ (filtered_base_query_batch_queue_nil db b)

/-- C6: an unknown workflow id makes both mutation endpoints raise NotFound
carrying that id, with a result that is the same for every database state —
so no query against TaskInstance/Run informs it and no write occurs. -/
theorem C6_unknown_dag_not_found (dag_bag : List Dag) (dag_id : String)
    (h : get_dag dag_bag dag_id = none) (cb : ClearBody) (sb : SetStateBody) :
    (∀ db, post_clear_task_instances dag_bag db dag_id cb =
      .error (.not_found ("Dag id " ++ dag_id ++ " not found"))) ∧
    (∀ db, post_set_task_instances_state dag_bag db dag_id sb =
      .error (.not_found ("Dag ID " ++ dag_id ++ " not found"))) := by
  constructor <;> intro db <;>
    simp [post_clear_task_instances, post_set_task_instances_state, h]

/-- C6 witness: the empty catalog rejects a clear of dag `missing`. -/
theorem C6_unknown_dag_not_found_witness :
    post_clear_task_instances [] w_db "missing" w_clear_dry =
      Except.error (ApiError.not_found "Dag id missing not found") := by
  exact (C6_unknown_dag_not_found [] "missing" rfl w_clear_dry w_set_dry).1 w_db

end TaskInstanceEndpoint

namespace TaskInstanceEndpoint

/-- Any successful clear response comes from a catalogued DAG, returns the
references of the set resolved in dry-run mode, and mutates only when the
request was not a dry run. -/
theorem post_clear_ok_shape (dag_bag : List Dag) (db : Database) (dag_id : String)
    (cb : ClearBody) (db2 : Database) (refs : List TaskInstanceReference)
    (h : post_clear_task_instances dag_bag db dag_id cb = .ok (db2, refs)) :
    ∃ dag, get_dag dag_bag dag_id = some dag ∧
      refs = (dag_clear db dag cb.start_date cb.end_date).map ti_reference ∧
      db2 = (if cb.dry_run then db
        else clear_task_instances db (dag_clear db dag cb.start_date cb.end_date)
          (if cb.reset_dag_runs then some "queued" else none)) := by
  cases hdag : get_dag dag_bag dag_id with
  | none => simp [post_clear_task_instances, hdag] at h
  | some dag =>
    refine ⟨dag, rfl, ?_⟩
    simp [post_clear_task_instances, hdag] at h
    exact ⟨h.2.symm, h.1.symm⟩

/-- Any successful set-state response comes from a catalogued DAG and carries
exactly the result of the cascade resolution with `commit = not dry_run`. -/
theorem post_set_ok_shape (dag_bag : List Dag) (db : Database) (dag_id : String)
    (sb : SetStateBody) (db2 : Database) (refs : List TaskInstanceReference)
    (h : post_set_task_instances_state dag_bag db dag_id sb = .ok (db2, refs)) :
    ∃ dag, get_dag dag_bag dag_id = some dag ∧
      db2 = (set_task_instance_state db dag sb.task_id sb.dag_run_id sb.execution_date
        sb.new_state sb.include_upstream sb.include_downstream sb.include_future
        sb.include_past (!sb.dry_run)).1 ∧
      refs = (set_task_instance_state db dag sb.task_id sb.dag_run_id sb.execution_date
        sb.new_state sb.include_upstream sb.include_downstream sb.include_future
        sb.include_past (!sb.dry_run)).2.map ti_reference := by
  cases hdag : get_dag dag_bag dag_id with
  | none => simp [post_set_task_instances_state, hdag] at h
  | some dag =>
    refine ⟨dag, rfl, ?_⟩
    by_cases hc : sb.task_id ∈ dag.task_dict
    case neg => simp [post_set_task_instances_state, hdag, hc] at h
    case pos =>
      cases hed : sb.execution_date with
      | none =>
        by_cases hr : truthy_str sb.dag_run_id
        · cases hg : ti_get db sb.task_id dag_id (sb.dag_run_id.getD "") (-1) with
          | none => simp [post_set_task_instances_state, hdag, hc, hed, hr, hg] at h
          | some ti =>
            simp [post_set_task_instances_state, hdag, hc, hed, hr, hg] at h
            exact ⟨h.1.symm, h.2.symm⟩
        · simp [post_set_task_instances_state, hdag, hc, hed, hr] at h
          exact ⟨h.1.symm, h.2.symm⟩
      | some d =>
        cases hoo : one_or_none (List.filter
            (fun ti => ti.task_id == sb.task_id && ti.dag_id == dag_id &&
              ti_matches_execution_date db ti d) db.task_instances) with
        | error e => simp [post_set_task_instances_state, hdag, hc, hed, hoo] at h
        | ok o =>
          cases o with
          | none => simp [post_set_task_instances_state, hdag, hc, hed, hoo] at h
          | some ti =>
            by_cases hr : truthy_str sb.dag_run_id
            · cases hg : ti_get db sb.task_id dag_id (sb.dag_run_id.getD "") (-1) with
              | none => simp [post_set_task_instances_state, hdag, hc, hed, hoo, hr, hg] at h
              | some ti2 =>
                simp [post_set_task_instances_state, hdag, hc, hed, hoo, hr, hg] at h
                exact ⟨h.1.symm, h.2.symm⟩
            · simp [post_set_task_instances_state, hdag, hc, hed, hoo, hr] at h
              exact ⟨h.1.symm, h.2.symm⟩

/-- C3: a dry-run clear or set-state request that succeeds returns the
database unchanged — no instance state and no run state is written, whatever
the resolved set is — together with the resolved reference list. -/
theorem C3_dry_run_no_mutation (dag_bag : List Dag) (db : Database) (dag_id : String)
    (cb : ClearBody) (sb : SetStateBody) (hcb : cb.dry_run = true) (hsb : sb.dry_run = true) :
    (∀ db2 refs, post_clear_task_instances dag_bag db dag_id cb = .ok (db2, refs) →
      db2 = db ∧ ∃ dag, get_dag dag_bag dag_id = some dag ∧
        refs = (dag_clear db dag cb.start_date cb.end_date).map ti_reference) ∧
    (∀ db2 refs, post_set_task_instances_state dag_bag db dag_id sb = .ok (db2, refs) →
      db2 = db ∧ ∃ dag, get_dag dag_bag dag_id = some dag ∧
        refs = (set_task_instance_state db dag sb.task_id sb.dag_run_id sb.execution_date
          sb.new_state sb.include_upstream sb.include_downstream sb.include_future
          sb.include_past false).2.map ti_reference) := by
  constructor
  · intro db2 refs h
    obtain ⟨dag, hdag, hrefs, hdb2⟩ := post_clear_ok_shape _ _ _ _ _ _ h
    rw [hcb] at hdb2
    exact ⟨by simpa using hdb2, dag, hdag, hrefs⟩
  · intro db2 refs h
    obtain ⟨dag, hdag, hdb2, hrefs⟩ := post_set_ok_shape _ _ _ _ _ _ h
    rw [hsb] at hdb2 hrefs
    exact ⟨hdb2, dag, hdag, hrefs⟩

/-- C3 witness: the concrete dry-run clear returns the database unchanged and
the references of both resolved instances. -/
theorem C3_dry_run_no_mutation_witness :
    w_db = w_db ∧ ∃ dag, get_dag w_dag_bag "d" = some dag ∧
      [ti_reference w_ti0, ti_reference w_ti1] =
        (dag_clear w_db dag w_clear_dry.start_date w_clear_dry.end_date).map ti_reference := by
  exact (C3_dry_run_no_mutation w_dag_bag w_db "d" w_clear_dry w_set_dry rfl rfl).1 w_db
    [ti_reference w_ti0, ti_reference w_ti1] (by rfl)

end TaskInstanceEndpoint

namespace TaskInstanceEndpoint

/-- `clear_task_instances` leaves every cleared instance with the sentinel
state. -/
theorem clear_task_instances_resets_states (db : Database) (tis : List TaskInstance)
    (st : Option String) :
    ∀ ti ∈ (clear_task_instances db tis st).task_instances,
      tis.any (fun t => same_ti_key t ti) = true → ti.state = none := by
  intro ti hmem hany
  simp only [clear_task_instances, List.mem_map] at hmem
  obtain ⟨ti0, _, hmap⟩ := hmem
  by_cases c : tis.any (fun t => same_ti_key t ti0) = true
  · rw [if_pos c] at hmap
    rw [← hmap]
  · rw [if_neg c] at hmap
    rw [← hmap] at hany
    exact absurd hany c

/-- `clear_task_instances` with a run state sets it on every affected run. -/
theorem clear_task_instances_queues_runs (db : Database) (tis : List TaskInstance)
    (st : String) :
    ∀ dr ∈ (clear_task_instances db tis (some st)).dag_runs,
      tis.any (fun t => t.dag_id == dr.dag_id && t.run_id == dr.run_id) = true →
      dr.state = st := by
  intro dr hmem hany
  simp only [clear_task_instances, List.mem_map] at hmem
  obtain ⟨dr0, _, hmap⟩ := hmem
  by_cases c : tis.any (fun t => t.dag_id == dr0.dag_id && t.run_id == dr0.run_id) = true
  · rw [if_pos c] at hmap
    rw [← hmap]
  · rw [if_neg c] at hmap
    rw [← hmap] at hany
    exact absurd hany c

/-- `clear_task_instances` without a run state keeps the runs untouched. -/
theorem clear_task_instances_runs_untouched (db : Database) (tis : List TaskInstance) :
    (clear_task_instances db tis none).dag_runs = db.dag_runs := rfl

/-- C8: a committing clear resets every resolved instance's state to the
sentinel; with `reset_dag_runs` it additionally sets each affected run's
state to `"queued"`, and without it the runs are left unchanged. -/
theorem C8_clear_commit_semantics (dag_bag : List Dag) (db : Database) (dag_id : String)
    (cb : ClearBody) (dag : Dag) (hdag : get_dag dag_bag dag_id = some dag)
    (hdry : cb.dry_run = false) :
    ∃ db2, post_clear_task_instances dag_bag db dag_id cb =
        .ok (db2, (dag_clear db dag cb.start_date cb.end_date).map ti_reference) ∧
      (∀ ti ∈ db2.task_instances,
        (dag_clear db dag cb.start_date cb.end_date).any (fun t => same_ti_key t ti) = true →
          ti.state = none) ∧
      (cb.reset_dag_runs = true → ∀ dr ∈ db2.dag_runs,
        (dag_clear db dag cb.start_date cb.end_date).any
            (fun t => t.dag_id == dr.dag_id && t.run_id == dr.run_id) = true →
          dr.state = "queued") ∧
      (cb.reset_dag_runs = false → db2.dag_runs = db.dag_runs) := by
  refine ⟨clear_task_instances db (dag_clear db dag cb.start_date cb.end_date)
    (if cb.reset_dag_runs then some "queued" else none), ?_, ?_, ?_, ?_⟩
  · simp [post_clear_task_instances, hdag, hdry]
  · exact clear_task_instances_resets_states db _ _
  · intro hreset
    rw [hreset, if_pos rfl]
    exact clear_task_instances_queues_runs db _ _
  · intro hreset
    rw [hreset]
    exact clear_task_instances_runs_untouched db _

/-- C8 witness: the concrete committing clear with `reset_dag_runs`. -/
theorem C8_clear_commit_semantics_witness :
    ∃ db2, post_clear_task_instances w_dag_bag w_db "d" w_clear_commit =
        .ok (db2, (dag_clear w_db w_dag w_clear_commit.start_date
          w_clear_commit.end_date).map ti_reference) ∧
      (∀ ti ∈ db2.task_instances,
        (dag_clear w_db w_dag w_clear_commit.start_date w_clear_commit.end_date).any
            (fun t => same_ti_key t ti) = true →
          ti.state = none) ∧
      (w_clear_commit.reset_dag_runs = true → ∀ dr ∈ db2.dag_runs,
        (dag_clear w_db w_dag w_clear_commit.start_date w_clear_commit.end_date).any
            (fun t => t.dag_id == dr.dag_id && t.run_id == dr.run_id) = true →
          dr.state = "queued") ∧
      (w_clear_commit.reset_dag_runs = false → db2.dag_runs = w_db.dag_runs) :=
  C8_clear_commit_semantics w_dag_bag w_db "d" w_clear_commit w_dag rfl rfl

/-- C10: when both anchors are falsy — no execution date, and a run id that
is absent or the empty string — no anchor-existence check runs, no NotFound
is raised, and the endpoint goes straight to the cascade resolution. -/
theorem C10_falsy_anchor_skips_check (dag_bag : List Dag) (db : Database) (dag_id : String)
    (sb : SetStateBody) (dag : Dag) (hdag : get_dag dag_bag dag_id = some dag)
    (htask : dag.task_dict.contains sb.task_id = true)
    (hdate : sb.execution_date = none)
    (hrid : sb.dag_run_id = none ∨ sb.dag_run_id = some "") :
    post_set_task_instances_state dag_bag db dag_id sb =
      .ok ((set_task_instance_state db dag sb.task_id sb.dag_run_id sb.execution_date
          sb.new_state sb.include_upstream sb.include_downstream sb.include_future
          sb.include_past (!sb.dry_run)).1,
        (set_task_instance_state db dag sb.task_id sb.dag_run_id sb.execution_date
          sb.new_state sb.include_upstream sb.include_downstream sb.include_future
          sb.include_past (!sb.dry_run)).2.map ti_reference) := by
  have hmem : sb.task_id ∈ dag.task_dict := by simpa using htask
  rcases hrid with h | h <;>
    simp [post_set_task_instances_state, hdag, hmem, hdate, h, truthy_str]

/-- C10 witness: the concrete both-anchors-falsy set-state request succeeds. -/
theorem C10_falsy_anchor_skips_check_witness :
    post_set_task_instances_state w_dag_bag w_db "d" w_set_falsy =
      .ok ((set_task_instance_state w_db w_dag w_set_falsy.task_id w_set_falsy.dag_run_id
          w_set_falsy.execution_date w_set_falsy.new_state w_set_falsy.include_upstream
          w_set_falsy.include_downstream w_set_falsy.include_future
          w_set_falsy.include_past (!w_set_falsy.dry_run)).1,
        (set_task_instance_state w_db w_dag w_set_falsy.task_id w_set_falsy.dag_run_id
          w_set_falsy.execution_date w_set_falsy.new_state w_set_falsy.include_upstream
          w_set_falsy.include_downstream w_set_falsy.include_future
          w_set_falsy.include_past (!w_set_falsy.dry_run)).2.map ti_reference) :=
  C10_falsy_anchor_skips_check w_dag_bag w_db "d" w_set_falsy w_dag rfl rfl rfl (Or.inl rfl)

end TaskInstanceEndpoint

namespace TaskInstanceEndpoint

/-- C2 counterexample: on the concrete database the endpoint's
execution-date anchor check passes — the filtered scan finds the mapped
instance `w_ti0` — although the direct key lookup the claim describes finds
no instance for that anchor (there is no `map_index = -1` row), so the
anchor-existence check is not performed by direct key lookup and a
key-lookup check would have raised NotFound here. -/
theorem C2_anchor_check_counterexample :
    (post_set_task_instances_state w_dag_bag w_db "d" w_set_by_date).isOk = true ∧
    anchor_key_lookup_by_date w_db "d" "t" 5 = none ∧
    w_set_by_date.execution_date = some 5 := by
  refine ⟨rfl, rfl, rfl⟩

/-- C2 (amended): the set-state operation raises NotFound when the supplied
anchor does not resolve to an existing TaskInstance; the run-id anchor is
checked by a direct primary-key lookup with `map_index = -1`, while the
execution-date anchor is checked by scanning a filtered query over
TaskInstance. -/
theorem C2_anchor_not_found (dag_bag : List Dag) (db : Database) (dag_id : String)
    (sb : SetStateBody) (dag : Dag) (hdag : get_dag dag_bag dag_id = some dag)
    (htask : sb.task_id ∈ dag.task_dict) :
    (∀ rid, sb.dag_run_id = some rid → rid ≠ "" → sb.execution_date = none →
      ti_get db sb.task_id dag_id rid (-1) = none →
      post_set_task_instances_state dag_bag db dag_id sb =
        .error (.not_found ("Task instance not found for task " ++ sb.task_id ++
          " on DAG run with ID " ++ rid))) ∧
    (∀ d, sb.execution_date = some d →
      db.task_instances.filter (fun ti =>
        ti.task_id == sb.task_id && ti.dag_id == dag_id &&
          ti_matches_execution_date db ti d) = [] →
      post_set_task_instances_state dag_bag db dag_id sb =
        .error (.not_found ("Task instance not found for task " ++ sb.task_id ++
          " on execution_date " ++ toString d))) := by
  constructor
  · intro rid hrid hne hdate hget
    have htr : truthy_str (some rid) = true := by
      simp [truthy_str, hne]
    simp [post_set_task_instances_state, hdag, htask, hdate, hrid, htr, hget]
  · intro d hdate hscan
    simp [post_set_task_instances_state, hdag, htask, hdate, hscan, one_or_none]

/-- C2 witness: the concrete request anchored on the missing run id `r2` is
rejected with NotFound. -/
theorem C2_anchor_not_found_witness :
    post_set_task_instances_state w_dag_bag w_db "d" w_set_missing_run =
      .error (.not_found ("Task instance not found for task " ++ "t" ++
        " on DAG run with ID " ++ "r2")) :=
  (C2_anchor_not_found w_dag_bag w_db "d" w_set_missing_run w_dag rfl (by decide)).1
    "r2" rfl (by decide) rfl rfl

end TaskInstanceEndpoint

namespace TaskInstanceEndpoint

/-- A list of length at most one has no duplicates. -/
theorem nodup_of_length_le_one {α : Type} {l : List α} (h : l.length ≤ 1) : l.Nodup := by
  match l, h with
  | [], _ => exact List.nodup_nil
  | [a], _ => exact List.nodup_singleton a
  | a :: b :: t, h =>
    simp only [List.length_cons] at h
    exact absurd h (by omega)

/-- At most one element survives a filter whose predicate pins a
duplicate-free key to a constant. -/
theorem length_filter_le_one {α β : Type} (l : List α) (p : α → Bool) (f : α → β) (c : β)
    (hnd : (l.map f).Nodup) (hp : ∀ x, p x = true → f x = c) :
    (l.filter p).length ≤ 1 := by
  induction l with
  | nil => simp
  | cons a l ih =>
    rw [List.map_cons, List.nodup_cons] at hnd
    rw [List.filter_cons]
    by_cases ha : p a = true
    · rw [if_pos ha]
      have hnil : l.filter p = [] := by
        by_contra hne
        obtain ⟨x, hx⟩ := List.exists_mem_of_ne_nil _ hne
        have hxl : x ∈ l := List.mem_of_mem_filter hx
        have hpx : p x = true := List.of_mem_filter hx
        apply hnd.1
        rw [hp a ha, ← hp x hpx]
        exact List.mem_map_of_mem f hxl
      simp [hnil]
    · rw [if_neg ha]
      exact ih hnd.2

/-- Every row a task instance contributes to the base query carries that
instance in its first component. -/
theorem fst_of_mem_join_runs {runs : List DagRun} {ti : TaskInstance} {row : Row}
    (h : row ∈ join_runs runs ti) : row.1 = ti := by
  simp only [join_runs, List.mem_map] at h
  obtain ⟨dr, _, h⟩ := h
  rw [← h]

/-- The key column of the rows one instance contributes is duplicate-free
when the run keys are. -/
theorem join_runs_keys_nodup {runs : List DagRun} (hdr : (runs.map dr_key).Nodup)
    (ti : TaskInstance) :
    ((join_runs runs ti).map (fun row => ti_key row.1)).Nodup := by
  apply nodup_of_length_le_one
  rw [List.length_map, join_runs, List.length_map]
  apply length_filter_le_one runs _ dr_key (ti.dag_id, ti.run_id) hdr
  intro dr hdr2
  simp only [Bool.and_eq_true, beq_iff_eq] at hdr2
  simp [dr_key, hdr2.1, hdr2.2]

/-- Keys of base-query rows contributed by `tis` are keys of members of
`tis`. -/
theorem mem_flatMap_keys {runs : List DagRun} {tis : List TaskInstance} {x}
    (hx : x ∈ (tis.flatMap (join_runs runs)).map (fun row => ti_key row.1)) :
    ∃ ti ∈ tis, x = ti_key ti := by
  simp only [List.mem_map, List.mem_flatMap] at hx
  obtain ⟨row, ⟨ti, hti, hrow⟩, hkey⟩ := hx
  refine ⟨ti, hti, ?_⟩
  rw [← hkey, fst_of_mem_join_runs hrow]

/-- With duplicate-free instance keys and run keys, the key column of the
joined base relation is duplicate-free. -/
theorem flatMap_join_runs_keys_nodup (runs : List DagRun)
    (hdr : (runs.map dr_key).Nodup) :
    ∀ tis : List TaskInstance, (tis.map ti_key).Nodup →
      ((tis.flatMap (join_runs runs)).map (fun row => ti_key row.1)).Nodup := by
  intro tis
  induction tis with
  | nil => intro _; simp
  | cons ti tis ih =>
    intro h
    rw [List.map_cons, List.nodup_cons] at h
    rw [List.flatMap_cons, List.map_append]
    refine List.Nodup.append (join_runs_keys_nodup hdr ti) (ih h.2) ?_
    intro x hx1 hx2
    obtain ⟨ti2, hti2, hkey2⟩ := mem_flatMap_keys hx2
    have hkey1 : x = ti_key ti := by
      simp only [List.mem_map] at hx1
      obtain ⟨row, hrow, hk⟩ := hx1
      rw [← hk, fst_of_mem_join_runs hrow]
    apply h.1
    have hsame : ti_key ti = ti_key ti2 := by rw [← hkey1, hkey2]
    rw [hsame]
    exact List.mem_map_of_mem ti_key hti2

/-- The key column of the base query is duplicate-free under the table key
constraints. -/
theorem base_query_keys_nodup (db : Database)
    (hti : (db.task_instances.map ti_key).Nodup)
    (hdr : (db.dag_runs.map dr_key).Nodup) :
    ((base_query db).map (fun row => ti_key row.1)).Nodup :=
  flatMap_join_runs_keys_nodup db.dag_runs hdr db.task_instances hti

/-- The array filter keeps a sublist of the query. -/
theorem apply_array_filter_sublist {α : Type} [BEq α] (q : Query) (key : Row → α)
    (v : Option (List α)) : List.Sublist (apply_array_filter q key v) q := by
  cases v with
  | none => exact List.Sublist.refl q
  | some vs => exact List.filter_sublist q

/-- The range filter keeps a sublist of the query. -/
theorem apply_range_filter_sublist (q : Query) (key : Row → Option Nat)
    (vr : Option Nat × Option Nat) : List.Sublist (apply_range_filter q key vr) q := by
  obtain ⟨g, u⟩ := vr
  cases g <;> cases u
  · exact List.Sublist.refl q
  · exact List.filter_sublist q
  · exact List.filter_sublist q
  · exact (List.filter_sublist _).trans (List.filter_sublist q)

/-- A conditionally applied filter keeps a sublist of the query. -/
theorem ite_filter_sublist (q : Query) (c : Prop) [Decidable c] (p : Row → Bool) :
    List.Sublist (if c then q.filter p else q) q := by
  split
  · exact List.filter_sublist q
  · exact List.Sublist.refl q

/-- The list endpoint's filtered base query is a sublist of the base query. -/
theorem filtered_base_query_sublist (db : Database) (p : ListParams) :
    List.Sublist (filtered_base_query db p) (base_query db) := by
  simp only [filtered_base_query]
  refine (apply_array_filter_sublist _ _ _).trans ?_
  refine (apply_array_filter_sublist _ _ _).trans ?_
  refine (apply_array_filter_sublist _ _ _).trans ?_
  refine (apply_range_filter_sublist _ _ _).trans ?_
  refine (apply_range_filter_sublist _ _ _).trans ?_
  refine (apply_range_filter_sublist _ _ _).trans ?_
  refine (apply_range_filter_sublist _ _ _).trans ?_
  refine (ite_filter_sublist _ _ _).trans ?_
  exact ite_filter_sublist _ _ _

/-- The batch endpoint's filtered base query is a sublist of the base query. -/
theorem filtered_base_query_batch_sublist (db : Database) (b : BatchBody) :
    List.Sublist (filtered_base_query_batch db b) (base_query db) := by
  simp only [filtered_base_query_batch]
  refine (apply_array_filter_sublist _ _ _).trans ?_
  refine (apply_array_filter_sublist _ _ _).trans ?_
  refine (apply_array_filter_sublist _ _ _).trans ?_
  refine (apply_range_filter_sublist _ _ _).trans ?_
  refine (apply_range_filter_sublist _ _ _).trans ?_
  refine (apply_range_filter_sublist _ _ _).trans ?_
  refine (apply_range_filter_sublist _ _ _).trans ?_
  exact apply_array_filter_sublist _ _ _

/-- C1: under the table key constraints, `total_entries` on both read
operations equals the number of distinct TaskInstance keys satisfying the
composed predicate over `TaskInstance INNER JOIN Run`, and the count is
independent of the SlaMiss and RenderedTaskInstanceFields tables entirely —
it is taken before those outer joins are added. -/
theorem C1_total_entries_distinct_pre_join (db : Database) (p : ListParams) (b : BatchBody)
    (hti : (db.task_instances.map ti_key).Nodup)
    (hdr : (db.dag_runs.map dr_key).Nodup) :
    (get_task_instances db p).total_entries = distinct_matching_keys db p ∧
    (get_task_instances_batch db b).total_entries = distinct_matching_keys_batch db b ∧
    (∀ sla rtif, (get_task_instances
        { db with sla_misses := sla, rendered_fields := rtif } p).total_entries =
      (get_task_instances db p).total_entries) ∧
    (∀ sla rtif, (get_task_instances_batch
        { db with sla_misses := sla, rendered_fields := rtif } b).total_entries =
      (get_task_instances_batch db b).total_entries) := by
  have hbase := base_query_keys_nodup db hti hdr
  refine ⟨?_, ?_, fun _ _ => rfl, fun _ _ => rfl⟩
  · have hnd : ((filtered_base_query db p).map (fun row => ti_key row.1)).Nodup :=
      List.Nodup.sublist ((filtered_base_query_sublist db p).map _) hbase
    show (filtered_base_query db p).length = distinct_matching_keys db p
    rw [distinct_matching_keys, List.Nodup.dedup hnd, List.length_map]
  · have hnd : ((filtered_base_query_batch db b).map (fun row => ti_key row.1)).Nodup :=
      List.Nodup.sublist ((filtered_base_query_batch_sublist db b).map _) hbase
    show (filtered_base_query_batch db b).length = distinct_matching_keys_batch db b
    rw [distinct_matching_keys_batch, List.Nodup.dedup hnd, List.length_map]

/-- C1 witness: the concrete database, whose SLA table is non-empty, with
the unfiltered parameters. -/
theorem C1_total_entries_distinct_pre_join_witness :
    (get_task_instances w_db w_params).total_entries = distinct_matching_keys w_db w_params ∧
    (get_task_instances_batch w_db w_batch).total_entries =
      distinct_matching_keys_batch w_db w_batch ∧
    (∀ sla rtif, (get_task_instances
        { w_db with sla_misses := sla, rendered_fields := rtif } w_params).total_entries =
      (get_task_instances w_db w_params).total_entries) ∧
    (∀ sla rtif, (get_task_instances_batch
        { w_db with sla_misses := sla, rendered_fields := rtif } w_batch).total_entries =
      (get_task_instances_batch w_db w_batch).total_entries) :=
  C1_total_entries_distinct_pre_join w_db w_params w_batch (by decide) (by decide)

end TaskInstanceEndpoint
